import Mathlib

/-!
Verification of the Nintendo Wii OHCI-over-mipc bus glue
(`drivers/usb/host/ohci-mipc.c`) and the Wii platform power sequencing
(`arch/powerpc/platforms/embedded6xx/wii.c`).

The C sources are shallowly embedded: each driver routine becomes a Lean
function over an environment that records the results of the external
collaborator calls (controller engine init/run, allocation, interrupt
mapping, bus registration, firmware IPC calls).  Each routine returns its
error code together with a trace of the externally visible events it
performs, in program order.  Machine registers are natural numbers with
bitwise operations.
-/

/-! ## Constants from ohci-mipc.c -/

def HOLLYWOOD_EHCI_CTL_OH0INTE : Nat := 1 <<< 11

def HOLLYWOOD_EHCI_CTL_OH1INTE : Nat := 1 <<< 12

/-- The value written back by the shared interrupt-enable sequence in
`ohci_mipc_start`, given the value `v` just read from the
`HOLLYWOOD_EHCI_CTL` register:
`mipc_out_be32(ehci_ctl, mipc_in_be32(ehci_ctl) | 0xe0000 | OH0INTE | OH1INTE)`. -/
def sharedEnableWrite (v : Nat) : Nat :=
  v ||| 0xe0000 ||| HOLLYWOOD_EHCI_CTL_OH0INTE ||| HOLLYWOOD_EHCI_CTL_OH1INTE

/-! ## ohci_mipc_start -/

/-- Externally visible events of `ohci_mipc_start`, in program order.
The source performs no locking around the shared-register access; the
vocabulary nevertheless includes lock events so that their absence from
every trace is a statable fact. -/
inductive StartEvent
  | ohciInit
  | lockAcquire
  | lockRelease
  | readSharedCtl (v : Nat)
  | writeSharedCtl (v : Nat)
  | ohciRun
  | diag (busName : String)
  | ohciStop
  deriving DecidableEq, Repr

/-- Results of the external controller-engine calls made by
`ohci_mipc_start` (0 means success, as in C). -/
structure StartEnv where
  ohciInitResult : Int
  ohciRunResult : Int
  busName : String
  deriving DecidableEq, Repr

/-- Shallow embedding of `ohci_mipc_start`.  Takes the environment and the
current value of the `HOLLYWOOD_EHCI_CTL` register; returns the error
code, the final register value, and the event trace. -/
def ohci_mipc_start (env : StartEnv) (ehciCtl : Nat) :
    Int × Nat × List StartEvent :=
  if env.ohciInitResult ≠ 0 then
    (env.ohciInitResult, ehciCtl, [.ohciInit])
  else
    let v := ehciCtl
    let w := sharedEnableWrite v
    if env.ohciRunResult ≠ 0 then
      (env.ohciRunResult, w,
        [.ohciInit, .readSharedCtl v, .writeSharedCtl w, .ohciRun,
         .diag env.busName, .ohciStop])
    else
      (0, w, [.ohciInit, .readSharedCtl v, .writeSharedCtl w, .ohciRun])

def isDiag : StartEvent → Bool
  | .diag _ => true
  | _ => false

def isLockEvent : StartEvent → Bool
  | .lockAcquire => true
  | .lockRelease => true
  | _ => false

/-! ## ohci_hcd_mipc_probe -/

def NO_IRQ : Nat := 0

def ENODEV : Int := 19

def ENOMEM : Int := 12

def EBUSY : Int := 16

/-- Results of the external calls made by `ohci_hcd_mipc_probe`. -/
structure ProbeEnv where
  /-- result of `usb_disabled()` -/
  usbDisabled : Bool
  /-- whether `starlet_get_ipc_flavour() == STARLET_IPC_MINI` -/
  ipcIsMini : Bool
  /-- result of `of_address_to_resource` (0 on success) -/
  addrError : Int
  /-- whether `usb_create_hcd` returned a non-NULL handle -/
  createHcdOk : Bool
  /-- result of `irq_of_parse_and_map` (`NO_IRQ` = 0 on failure) -/
  irq : Nat
  /-- result of `usb_add_hcd` (0 on success) -/
  addHcdError : Int
  deriving DecidableEq, Repr

/-- Externally visible events of `ohci_hcd_mipc_probe`, in program order. -/
inductive ProbeEvent
  | addrResolve
  | createHcd
  | lookupIrq (irq : Nat)
  | printkErr
  | addHcd
  | disposeIrq (irq : Nat)
  | putHcd
  deriving DecidableEq, Repr

/-- Shallow embedding of `ohci_hcd_mipc_probe`: returns the error code and
the trace of external calls.  `.createHcd` is emitted only when the
allocation succeeds; `.lookupIrq` records the mapping result; `.addHcd`
records the call to `usb_add_hcd`. -/
def ohci_hcd_mipc_probe (env : ProbeEnv) : Int × List ProbeEvent :=
  if env.usbDisabled then (-ENODEV, [])
  else if env.ipcIsMini = false then (-ENODEV, [])
  else if env.addrError ≠ 0 then (env.addrError, [.addrResolve])
  else if env.createHcdOk = false then (-ENOMEM, [.addrResolve])
  else if env.irq = NO_IRQ then
    (-EBUSY,
     [.addrResolve, .createHcd, .lookupIrq env.irq, .printkErr, .putHcd])
  else if env.addHcdError ≠ 0 then
    (env.addHcdError,
     [.addrResolve, .createHcd, .lookupIrq env.irq, .addHcd,
      .disposeIrq env.irq, .putHcd])
  else
    (0, [.addrResolve, .createHcd, .lookupIrq env.irq, .addHcd])

/-- Resources acquired during probe: the controller handle from
`usb_create_hcd` and the interrupt mapping from `irq_of_parse_and_map`. -/
inductive PRes
  | hcdRes
  | irqRes (irq : Nat)
  deriving DecidableEq, Repr

/-- Acquisitions appearing in a probe trace, in order. -/
def acquiresOf : List ProbeEvent → List PRes
  | [] => []
  | e :: rest =>
    match e with
    | .createHcd => .hcdRes :: acquiresOf rest
    | .lookupIrq irq =>
      if irq = NO_IRQ then acquiresOf rest else .irqRes irq :: acquiresOf rest
    | _ => acquiresOf rest

/-- Releases appearing in a probe trace, in order. -/
def releasesOf : List ProbeEvent → List PRes
  | [] => []
  | e :: rest =>
    match e with
    | .putHcd => .hcdRes :: releasesOf rest
    | .disposeIrq irq => .irqRes irq :: releasesOf rest
    | _ => releasesOf rest

/-- All steps of the probe succeed. -/
def probeSucceedsAll (env : ProbeEnv) : Prop :=
  env.usbDisabled = false ∧ env.ipcIsMini = true ∧ env.addrError = 0 ∧
  env.createHcdOk = true ∧ env.irq ≠ NO_IRQ ∧ env.addHcdError = 0

/-! ## ohci_hcd_mipc_remove -/

/-- Controller handle as seen by the remove path (only its interrupt line
matters for the trace). -/
structure Hcd where
  irq : Nat
  deriving DecidableEq, Repr

/-- Externally visible events of `ohci_hcd_mipc_remove`, in program order. -/
inductive RemoveEvent
  | setDrvdataNull
  | debugMsg
  | removeHcd
  | disposeIrq (irq : Nat)
  | putHcd
  deriving DecidableEq, Repr

/-- Shallow embedding of `ohci_hcd_mipc_remove`: clears the driver data,
emits the debug message, then unregisters, disposes the interrupt mapping
and drops the handle, returning 0. -/
def ohci_hcd_mipc_remove (hcd : Hcd) : Int × List RemoveEvent :=
  (0, [.setDrvdataNull, .debugMsg, .removeHcd, .disposeIrq hcd.irq, .putHcd])

/-- The resource-affecting teardown operations among the remove events. -/
def isResourceOp : RemoveEvent → Bool
  | .removeHcd => true
  | .disposeIrq _ => true
  | .putHcd => true
  | _ => false

/-! ## wii.c power sequencer -/

/-- The firmware IPC calls made by the Wii platform code. -/
inductive RemoteCall
  /-- `starlet_es_reload_ios_and_launch(STARLET_TITLE_HBC)` -/
  | esReloadIosAndLaunch
  /-- `starlet_stm_restart()` -/
  | stmRestart
  /-- `starlet_stm_power_off()` -/
  | stmPowerOff
  /-- `starlet_es_reload_ios_and_discard()` -/
  | esReloadIosAndDiscard
  deriving DecidableEq, Repr

/-- Externally visible events of the power-sequencer routines. -/
inductive PowerEvent
  | irqDisable
  | call (c : RemoteCall)
  | jumpToImage (image : Nat)
  deriving DecidableEq, Repr

/-- How a power-sequencer routine terminates: either a remote call took
effect and control left the kernel, or the routine spins forever with the
recorded interrupt-enable state. -/
inductive Terminal
  | transferred
  | safeSpin (irqEnabled : Bool)
  deriving DecidableEq, Repr

/-- The remote calls occurring in a power trace, in order. -/
def remoteCalls (tr : List PowerEvent) : List RemoteCall :=
  tr.filterMap fun e =>
    match e with
    | .call c => some c
    | _ => none

/-- Shallow embedding of `wii_restart`.  The two firmware calls are fire
and forget: a call that takes effect transfers control and nothing after
it runs, a call with no effect returns.  `primaryEffect` and
`fallbackEffect` say whether each call takes effect. -/
def wii_restart (primaryEffect fallbackEffect : Bool) :
    List PowerEvent × Terminal :=
  if primaryEffect then
    ([.irqDisable, .call .esReloadIosAndLaunch], .transferred)
  else if fallbackEffect then
    ([.irqDisable, .call .esReloadIosAndLaunch, .call .stmRestart],
     .transferred)
  else
    ([.irqDisable, .call .esReloadIosAndLaunch, .call .stmRestart],
     .safeSpin false)

/-- Shallow embedding of `wii_power_off`. -/
def wii_power_off (effect : Bool) : List PowerEvent × Terminal :=
  if effect then
    ([.irqDisable, .call .stmPowerOff], .transferred)
  else
    ([.irqDisable, .call .stmPowerOff], .safeSpin false)

/-- Shallow embedding of `wii_machine_kexec`: disable interrupts, reload
IOS discarding the current session, then jump to the image. -/
def wii_machine_kexec (image : Nat) : List PowerEvent :=
  [.irqDisable, .call .esReloadIosAndDiscard, .jumpToImage image]

/-! ## Interleaving model for the shared-register read-modify-write -/

/-- One atomic hardware access of a slot performing the shared
interrupt-enable sequence: `read` latches the register into the slot's
local value, `write` stores the OR-combined result back. -/
inductive RmwStep
  | read (slot1 : Bool)
  | write (slot1 : Bool)
  deriving DecidableEq, Repr

/-- Register plus each slot's latched read value. -/
structure RmwState where
  reg : Nat
  buf0 : Option Nat
  buf1 : Option Nat
  deriving DecidableEq, Repr

/-- Small-step semantics of the read-modify-write sequences over the
shared register. -/
def rmwStep (st : RmwState) : RmwStep → RmwState
  | .read false => { st with buf0 := some st.reg }
  | .read true => { st with buf1 := some st.reg }
  | .write false =>
    match st.buf0 with
    | some v => { st with reg := sharedEnableWrite v }
    | none => st
  | .write true =>
    match st.buf1 with
    | some v => { st with reg := sharedEnableWrite v }
    | none => st

def rmwRun (steps : List RmwStep) (st : RmwState) : RmwState :=
  steps.foldl rmwStep st

/-- The two-step access sequence of one slot, as executed by
`ohci_mipc_start`: read the register, then write the combined value. -/
def rmwSeq (slot1 : Bool) : List RmwStep := [.read slot1, .write slot1]

/-- `IsInterleaving xs ys zs`: `zs` is an arbitrary interleaving of the
two sequences `xs` and `ys`, each kept in its own order. -/
inductive IsInterleaving : List RmwStep → List RmwStep → List RmwStep → Prop
  | nil : IsInterleaving [] [] []
  | left {xs ys zs x} :
      IsInterleaving xs ys zs → IsInterleaving (x :: xs) ys (x :: zs)
  | right {xs ys zs y} :
      IsInterleaving xs ys zs → IsInterleaving xs (y :: ys) (y :: zs)

/-! ## Basic facts about the shared-enable write -/

theorem sharedEnableWrite_eq (v : Nat) : sharedEnableWrite v = v ||| 0xe1800 := by
  show v ||| 0xe0000 ||| HOLLYWOOD_EHCI_CTL_OH0INTE |||
      HOLLYWOOD_EHCI_CTL_OH1INTE = v ||| 0xe1800
  rw [Nat.lor_assoc, Nat.lor_assoc]
  congr 1

theorem lor_mask_idem (v : Nat) : (v ||| 0xe1800) ||| 0xe1800 = v ||| 0xe1800 := by
  rw [Nat.lor_assoc]
  congr 1

theorem sharedEnableWrite_idem (v : Nat) :
    sharedEnableWrite (sharedEnableWrite v) = sharedEnableWrite v := by
  rw [sharedEnableWrite_eq, sharedEnableWrite_eq, lor_mask_idem]

theorem lor_mask_testBit_outside (v i : Nat)
    (h : (0xe1800 : Nat).testBit i = false) :
    (v ||| 0xe1800).testBit i = v.testBit i := by
  rw [Nat.testBit_lor, h, Bool.or_false]

/-! ## Claim theorems -/

/-- C10: the shared interrupt-enable write is monotone: for every prior
register value `v` the value written back is `v` OR the fixed constant
`0xe0000 ||| OH0INTE ||| OH1INTE`, so every bit already set stays set and
no bit outside that constant changes. -/
theorem shared_enable_write_monotone (v : Nat) :
    sharedEnableWrite v =
      v ||| (0xe0000 ||| HOLLYWOOD_EHCI_CTL_OH0INTE |||
        HOLLYWOOD_EHCI_CTL_OH1INTE) ∧
    (∀ i, v.testBit i = true → (sharedEnableWrite v).testBit i = true) ∧
    (∀ i, (0xe0000 ||| HOLLYWOOD_EHCI_CTL_OH0INTE |||
        HOLLYWOOD_EHCI_CTL_OH1INTE : Nat).testBit i = false →
      (sharedEnableWrite v).testBit i = v.testBit i) := by
  have hc : (0xe0000 ||| HOLLYWOOD_EHCI_CTL_OH0INTE |||
      HOLLYWOOD_EHCI_CTL_OH1INTE : Nat) = 0xe1800 := by decide
  refine ⟨?_, ?_, ?_⟩
  · rw [sharedEnableWrite_eq, hc]
  · intro i hi
    rw [sharedEnableWrite_eq, Nat.testBit_lor, hi, Bool.true_or]
  · intro i hi
    rw [hc] at hi
    rw [sharedEnableWrite_eq, lor_mask_testBit_outside v i hi]

theorem shared_enable_write_monotone_witness :
    (sharedEnableWrite 5).testBit 0 = true ∧
    (sharedEnableWrite 5).testBit 13 = (5 : Nat).testBit 13 :=
  ⟨(shared_enable_write_monotone 5).2.1 0 (by decide),
   (shared_enable_write_monotone 5).2.2 13 (by decide)⟩

/-- C4 counterexample: with the register initially 0 and engine init
succeeding, `ohci_mipc_start` writes back `0xe1800`, whose bit 11
(slot-0 enable) and bit 12 (slot-1 enable) are both set — the sequence
ORs in both slots' enable bits, not only the current slot's, refuting
"and no other slot's enable bit". -/
theorem start_write_sets_both_slots :
    StartEvent.writeSharedCtl 0xe1800 ∈
      (ohci_mipc_start ⟨0, 0, "ohci"⟩ 0).2.2 ∧
    (0xe1800 : Nat).testBit 11 = true ∧
    (0xe1800 : Nat).testBit 12 = true := by decide

/-- C4 (amended): the shared interrupt-enable sequence is a
read-modify-write: whenever engine init succeeds, the trace of
`ohci_mipc_start` begins with engine init, a read of the
SharedInterruptControl register returning the current value, and a write
back of that value OR the fixed mask `0xe0000` OR both slots' enable
bits. -/
theorem start_rmw_or_mask_both_bits (env : StartEnv) (reg : Nat)
    (h : env.ohciInitResult = 0) :
    ((ohci_mipc_start env reg).2.2.take 3 =
      [.ohciInit, .readSharedCtl reg,
       .writeSharedCtl (reg ||| 0xe0000 ||| HOLLYWOOD_EHCI_CTL_OH0INTE |||
         HOLLYWOOD_EHCI_CTL_OH1INTE)]) ∧
    (ohci_mipc_start env reg).2.1 =
      reg ||| 0xe0000 ||| HOLLYWOOD_EHCI_CTL_OH0INTE |||
        HOLLYWOOD_EHCI_CTL_OH1INTE := by
  by_cases hr : env.ohciRunResult = 0 <;>
    simp [ohci_mipc_start, h, hr, sharedEnableWrite]

theorem start_rmw_or_mask_both_bits_witness :
    (ohci_mipc_start ⟨0, 0, "ohci"⟩ 3).2.2.take 3 =
      [.ohciInit, .readSharedCtl 3,
       .writeSharedCtl (3 ||| 0xe0000 ||| HOLLYWOOD_EHCI_CTL_OH0INTE |||
         HOLLYWOOD_EHCI_CTL_OH1INTE)] :=
  (start_rmw_or_mask_both_bits ⟨0, 0, "ohci"⟩ 3 (by decide)).1

/-- C3 counterexample: engine init succeeds, engine run fails with code 5,
register initially 0.  After the failure path finishes (including the
rollback call to `ohci_stop`), the slot enable bits 11 and 12 are still
set in the shared interrupt-control register: nothing on the path clears
them. -/
theorem start_runfail_enable_bit_remains :
    ((ohci_mipc_start ⟨0, 5, "ohci0"⟩ 0).2.1).testBit 11 = true ∧
    ((ohci_mipc_start ⟨0, 5, "ohci0"⟩ 0).2.1).testBit 12 = true ∧
    StartEvent.ohciStop ∈ (ohci_mipc_start ⟨0, 5, "ohci0"⟩ 0).2.2 := by
  decide

/-- C3 (amended): if engine init succeeds and engine run then fails, the
rollback invokes the engine stop operation but does not clear the
interrupt-enable bits: after the failure path the shared
interrupt-control register holds its old value OR the fixed mask, with
both slot enable bits still set. -/
theorem start_runfail_bits_not_cleared (env : StartEnv) (reg : Nat)
    (h1 : env.ohciInitResult = 0) (h2 : env.ohciRunResult ≠ 0) :
    (ohci_mipc_start env reg).2.1 = reg ||| 0xe1800 ∧
    ((ohci_mipc_start env reg).2.1).testBit 11 = true ∧
    ((ohci_mipc_start env reg).2.1).testBit 12 = true ∧
    StartEvent.ohciStop ∈ (ohci_mipc_start env reg).2.2 := by
  have he : (ohci_mipc_start env reg).2.1 = reg ||| 0xe1800 := by
    simp [ohci_mipc_start, h1, h2, sharedEnableWrite_eq]
  refine ⟨he, ?_, ?_, ?_⟩
  · rw [he, Nat.testBit_lor]
    simp
    exact Or.inr (by decide)
  · rw [he, Nat.testBit_lor]
    simp
    exact Or.inr (by decide)
  · simp [ohci_mipc_start, h1, h2]

theorem start_runfail_bits_not_cleared_witness :
    (ohci_mipc_start ⟨0, 5, "usb1"⟩ 4).2.1 = 4 ||| 0xe1800 :=
  (start_runfail_bits_not_cleared ⟨0, 5, "usb1"⟩ 4 (by decide) (by decide)).1

/-- C6: on engine-start failure, `ohci_mipc_start` returns the engine run
error code, its trace holds exactly one diagnostic message and that
message names the controller bus name, and the engine stop operation is
invoked. -/
theorem start_runfail_stop_diag_code (env : StartEnv) (reg : Nat)
    (h1 : env.ohciInitResult = 0) (h2 : env.ohciRunResult ≠ 0) :
    (ohci_mipc_start env reg).1 = env.ohciRunResult ∧
    (ohci_mipc_start env reg).2.2.filter isDiag = [.diag env.busName] ∧
    StartEvent.ohciStop ∈ (ohci_mipc_start env reg).2.2 := by
  simp [ohci_mipc_start, h1, h2, isDiag]

theorem start_runfail_stop_diag_code_witness :
    (ohci_mipc_start ⟨0, 5, "usb2"⟩ 0).1 = 5 ∧
    (ohci_mipc_start ⟨0, 5, "usb2"⟩ 0).2.2.filter isDiag =
      [.diag "usb2"] :=
  ⟨(start_runfail_stop_diag_code ⟨0, 5, "usb2"⟩ 0 (by decide) (by decide)).1,
   (start_runfail_stop_diag_code ⟨0, 5, "usb2"⟩ 0 (by decide) (by decide)).2.1⟩

/-- C5: for every handle, the remove path returns 0 and its
resource-affecting operations are exactly: unregister from the bus, then
dispose the interrupt mapping, then drop the handle, in that order and
nothing else. -/
theorem remove_release_order (hcd : Hcd) :
    (ohci_hcd_mipc_remove hcd).1 = 0 ∧
    (ohci_hcd_mipc_remove hcd).2.filter isResourceOp =
      [.removeHcd, .disposeIrq hcd.irq, .putHcd] := by
  simp [ohci_hcd_mipc_remove, isResourceOp]

/-- C9: `wii_machine_kexec` first disables interrupts, then issues the
remote call discarding the current IOS session, then jumps to the image —
in exactly that order, with that call as the only remote call (no
fallback). -/
theorem kexec_sequence (image : Nat) :
    wii_machine_kexec image =
      [.irqDisable, .call .esReloadIosAndDiscard, .jumpToImage image] ∧
    remoteCalls (wii_machine_kexec image) = [.esReloadIosAndDiscard] := by
  simp [wii_machine_kexec, remoteCalls]

/-- C7: `wii_restart` makes the reload-and-launch call and then (if
control returns) the assisted-restart call, never a third remote call;
with neither call taking effect it ends in the non-returning spin with
interrupts disabled.  `wii_power_off` makes its single assisted
power-off call and, with no effect, also ends spinning with interrupts
disabled. -/
theorem restart_power_off_attempt_chain :
    (∀ p f : Bool,
      remoteCalls (wii_restart p f).1 = [.esReloadIosAndLaunch] ∨
      remoteCalls (wii_restart p f).1 =
        [.esReloadIosAndLaunch, .stmRestart]) ∧
    wii_restart false false =
      ([.irqDisable, .call .esReloadIosAndLaunch, .call .stmRestart],
       .safeSpin false) ∧
    (∀ e : Bool, remoteCalls (wii_power_off e).1 = [.stmPowerOff]) ∧
    wii_power_off false =
      ([.irqDisable, .call .stmPowerOff], .safeSpin false) := by
  refine ⟨?_, by decide, ?_, by decide⟩
  · intro p f
    cases p <;> cases f <;> simp [wii_restart, remoteCalls]
  · intro e
    cases e <;> simp [wii_power_off, remoteCalls]

/-- C1: `ohci_hcd_mipc_probe` returns a nonzero error only after the
releases in its trace undo, in reverse order, exactly the acquisitions
(handle creation, interrupt mapping) that succeeded before the failing
step; and it returns 0 exactly when every step succeeded. -/
theorem probe_rollback_exact (env : ProbeEnv) :
    ((ohci_hcd_mipc_probe env).1 ≠ 0 →
      releasesOf (ohci_hcd_mipc_probe env).2 =
        (acquiresOf (ohci_hcd_mipc_probe env).2).reverse) ∧
    ((ohci_hcd_mipc_probe env).1 = 0 ↔ probeSucceedsAll env) := by
  obtain ⟨ud, mini, ae, ch, irq, ahe⟩ := env
  cases ud <;> cases mini <;> cases ch <;>
    by_cases h1 : ae = 0 <;> by_cases h2 : irq = NO_IRQ <;>
      by_cases h3 : ahe = 0 <;>
        simp_all [ohci_hcd_mipc_probe, probeSucceedsAll, acquiresOf,
          releasesOf, ENODEV, ENOMEM, EBUSY, NO_IRQ]

theorem probe_rollback_exact_witness :
    releasesOf (ohci_hcd_mipc_probe ⟨false, true, 0, true, 7, 3⟩).2 =
      (acquiresOf (ohci_hcd_mipc_probe ⟨false, true, 0, true, 7, 3⟩).2).reverse :=
  (probe_rollback_exact ⟨false, true, 0, true, 7, 3⟩).1 (by decide)

/-- C2 counterexample: register window resolves, handle creation
succeeds, interrupt mapping fails (`NO_IRQ`).  The probe returns the
interrupt-line error `-EBUSY`, yet its trace contains the `createHcd`
allocation — the allocation happens before the interrupt-line lookup,
refuting "zero resource allocation". -/
theorem probe_irqfail_allocation_occurs :
    (ohci_hcd_mipc_probe ⟨false, true, 0, true, 0, 0⟩).1 = -EBUSY ∧
    ProbeEvent.createHcd ∈
      (ohci_hcd_mipc_probe ⟨false, true, 0, true, 0, 0⟩).2 := by decide

/-- C2 (amended): the interrupt-line lookup happens after register-window
resolution and after the controller-handle allocation; when the register
window resolves but the interrupt line cannot be mapped, the probe
releases the allocated handle and returns `-EBUSY`, so the failure leaves
no allocation held (the trace is exactly: resolve, allocate, failed
lookup, error message, release). -/
theorem probe_irqfail_releases_alloc (env : ProbeEnv)
    (h0 : env.usbDisabled = false) (h1 : env.ipcIsMini = true)
    (h2 : env.addrError = 0) (h3 : env.createHcdOk = true)
    (h4 : env.irq = NO_IRQ) :
    (ohci_hcd_mipc_probe env).1 = -EBUSY ∧
    (ohci_hcd_mipc_probe env).2 =
      [.addrResolve, .createHcd, .lookupIrq NO_IRQ, .printkErr, .putHcd] := by
  simp [ohci_hcd_mipc_probe, h0, h1, h2, h3, h4]

theorem probe_irqfail_releases_alloc_witness :
    (ohci_hcd_mipc_probe ⟨false, true, 0, true, 0, 0⟩).2 =
      [.addrResolve, .createHcd, .lookupIrq NO_IRQ, .printkErr, .putHcd] :=
  (probe_irqfail_releases_alloc ⟨false, true, 0, true, 0, 0⟩
    (by decide) (by decide) (by decide) (by decide) (by decide)).2

/-- C8 counterexample: the start sequence performs the shared-register
read and write with no mutual-exclusion event anywhere in its trace — the
read-modify-write is not protected by any lock. -/
theorem start_rmw_no_lock :
    (ohci_mipc_start ⟨0, 0, "ohci"⟩ 0).2.2.filter isLockEvent = [] ∧
    StartEvent.readSharedCtl 0 ∈ (ohci_mipc_start ⟨0, 0, "ohci"⟩ 0).2.2 ∧
    StartEvent.writeSharedCtl 0xe1800 ∈
      (ohci_mipc_start ⟨0, 0, "ohci"⟩ 0).2.2 := by decide

/-- C8 (amended): the read-modify-write is not lock-protected, but no
interleaving of the two slots' sequences loses an update: each slot ORs
in the fixed mask and both slots' enable bits, so for every initial value
`v` and every interleaving of the two two-step sequences the final
register is `v ||| 0xe1800` — both slot-enable bits set and no bit
outside the fixed mask altered. -/
theorem rmw_any_interleaving_no_lost_update (v : Nat) (sched : List RmwStep)
    (h : IsInterleaving (rmwSeq false) (rmwSeq true) sched) :
    (rmwRun sched ⟨v, none, none⟩).reg = v ||| 0xe1800 ∧
    ((rmwRun sched ⟨v, none, none⟩).reg).testBit 11 = true ∧
    ((rmwRun sched ⟨v, none, none⟩).reg).testBit 12 = true ∧
    (∀ i, (0xe1800 : Nat).testBit i = false →
      ((rmwRun sched ⟨v, none, none⟩).reg).testBit i = v.testBit i) := by
  have key : (rmwRun sched ⟨v, none, none⟩).reg = v ||| 0xe1800 := by
    rw [rmwSeq, rmwSeq] at h
    cases h with
    | left h => cases h with
      | left h => cases h with
        | right h => cases h with
          | right h => cases h with
            | nil =>
              simp [rmwRun, rmwStep, sharedEnableWrite_eq, lor_mask_idem]
      | right h => cases h with
        | left h => cases h with
          | right h => cases h with
            | nil =>
              simp [rmwRun, rmwStep, sharedEnableWrite_eq, lor_mask_idem]
        | right h => cases h with
          | left h => cases h with
            | nil =>
              simp [rmwRun, rmwStep, sharedEnableWrite_eq, lor_mask_idem]
    | right h => cases h with
      | left h => cases h with
        | left h => cases h with
          | right h => cases h with
            | nil =>
              simp [rmwRun, rmwStep, sharedEnableWrite_eq, lor_mask_idem]
        | right h => cases h with
          | left h => cases h with
            | nil =>
              simp [rmwRun, rmwStep, sharedEnableWrite_eq, lor_mask_idem]
      | right h => cases h with
        | left h => cases h with
          | left h => cases h with
            | nil =>
              simp [rmwRun, rmwStep, sharedEnableWrite_eq, lor_mask_idem]
  refine ⟨key, ?_, ?_, ?_⟩
  · rw [key, Nat.testBit_lor]
    simp
    exact Or.inr (by decide)
  · rw [key, Nat.testBit_lor]
    simp
    exact Or.inr (by decide)
  · intro i hi
    rw [key, lor_mask_testBit_outside v i hi]

theorem rmw_any_interleaving_no_lost_update_witness :
    (rmwRun [.read false, .read true, .write false, .write true]
      ⟨9, none, none⟩).reg = 9 ||| 0xe1800 :=
  (rmw_any_interleaving_no_lost_update 9
    [.read false, .read true, .write false, .write true]
    (IsInterleaving.left (.right (.left (.right .nil))))).1
